import Mathlib

/-!
Verification of the event-ticketing-system API (Go) against its specification.

The embedding models the data entities (`internal/models/models.go`), the
ticket and event handlers (`internal/handlers/tickets.go`,
`internal/handlers/events.go`), registration (`internal/handlers/auth.go`),
the JWT functions (`internal/auth/jwt.go`), the auth middleware
(`JWTAuth` / `AdminAuth`), and the QR utilities.  The gorm-backed database
is modelled as an explicit in-memory store passed through each operation;
machine times (`time.Time` / Unix seconds) are `Int`; Go `int` is `Int`.
Cryptographic primitives (bcrypt, HMAC-SHA256) are modelled symbolically:
a hash or MAC is an injective tagged value, the standard perfect-primitive
(Dolev-Yao) reading.
-/

namespace ETS

/-- Model of `models.User`: id, name, email, password (hash), role.  The gorm
timestamps `CreatedAt`/`UpdatedAt` are never read by any modelled operation
and are omitted. -/
structure User where
  id : Nat
  name : String
  email : String
  password : String
  role : String
deriving DecidableEq, Repr

/-- Model of `models.Event`.  `Price float64` is never read by any modelled operation
and is omitted (floating point); `Date` is Unix seconds as `Int`. -/
structure Event where
  id : Nat
  title : String
  description : String
  date : Int
  location : String
  capacity : Int
deriving DecidableEq, Repr

/-- Model of `models.Ticket`. -/
structure Ticket where
  id : Nat
  eventID : Nat
  userID : Nat
  qrCode : String
  status : String
deriving DecidableEq, Repr

/-- Model of `models.AttendanceLog` (its own id and timestamps other than
`CheckedInAt` are never read and are omitted). -/
structure AttendanceLog where
  ticketID : Nat
  checkedInAt : Int
deriving DecidableEq, Repr

/-- The database state: one table per entity plus the auto-increment
counters gorm's primary keys provide. -/
structure Store where
  users : List User
  events : List Event
  tickets : List Ticket
  logs : List AttendanceLog
  nextUserID : Nat
  nextTicketID : Nat
deriving DecidableEq, Repr

/-- Lookup `db.Where("id = ?", id).First(&user)`. -/
def findUser (st : Store) (uid : Nat) : Option User :=
  st.users.find? (fun u => u.id == uid)

/-- Lookup `db.Where("id = ?", id).First(&event)`. -/
def findEvent (st : Store) (eid : Nat) : Option Event :=
  st.events.find? (fun e => e.id == eid)

/-- Lookup `db.Where("id = ?", id).First(&ticket)`. -/
def findTicket (st : Store) (tid : Nat) : Option Ticket :=
  st.tickets.find? (fun t => t.id == tid)

/-- Count `db.Model(&models.Ticket{}).Where("event_id = ?", eventID).Count(&n)`. -/
def countTicketsForEvent (st : Store) (eid : Nat) : Nat :=
  (st.tickets.filter (fun t => t.eventID == eid)).length

/-- Number of attendance logs referencing a ticket. -/
def countLogsFor (st : Store) (tid : Nat) : Nat :=
  (st.logs.filter (fun l => l.ticketID == tid)).length

/-- Model of `utils.GenerateQRCode`: it builds the payload string
"TICKET-%d-%d-%d-%s-%d" from (ticketID, eventID, userID, uuid, nanos);
the UUID and the nanosecond clock are inputs here. -/
def generateQRCode (ticketID eventID userID : Nat) (uuid : String) (nano : Int) : String :=
  "TICKET-" ++ toString ticketID ++ "-" ++ toString eventID ++ "-" ++ toString userID
    ++ "-" ++ uuid ++ "-" ++ toString nano

/-- Model of `utils.ValidateQRCode`: mirrors the Go exactly — it compares only the
LENGTH of the data against the length of "TICKET-"; the prefix characters
themselves are never compared. -/
def validateQRCode (qrData : String) : Bool :=
  let expected := "TICKET-"
  if qrData.length < expected.length then false else true

/-- Outcome of `TicketHandler.PurchaseTicket` after the event lookup. -/
inductive PurchaseResult where
  | eventNotFound
  | pastEvent
  | notEnough
  | created (tickets : List Ticket)
deriving DecidableEq, Repr

/-- The batch built by the purchase loop: `for i := 0; i < quantity; i++`
creates a ticket {EventID, UserID, QRCode, Status: "valid"}; the handler
calls `GenerateQRCode(uint(eventID), userID, uint(i+1))`, so the event id
lands in the generator's ticketID slot and the loop index in its userID
slot, exactly as in the source call site. -/
def mkTickets (st : Store) (eid uid : Nat) (uuid : String) (now : Int) (q : Int) : List Ticket :=
  (List.range q.toNat).map (fun i =>
    { id := st.nextTicketID + i
      eventID := eid
      userID := uid
      qrCode := generateQRCode eid uid (i + 1) uuid now
      status := "valid" })

/-- Model of `TicketHandler.PurchaseTicket` (gorilla-mux version,
`internal/handlers/tickets.go`).  The JSON body is decoded with
`json.NewDecoder(...).Decode`, which performs no `binding` validation, so
the quantity reaches the handler unchecked.  `event.Date.Before(time.Now())`
is a strict comparison.  Available capacity is
`event.Capacity - count(tickets of the event)` in Go `int` arithmetic. -/
def purchaseTicket (st : Store) (eid uid : Nat) (q now : Int) (uuid : String) :
    PurchaseResult × Store :=
  match findEvent st eid with
  | none => (.eventNotFound, st)
  | some event =>
    if event.date < now then (.pastEvent, st)
    else
      let availableCapacity : Int := event.capacity - (countTicketsForEvent st eid : Int)
      if availableCapacity < q then (.notEnough, st)
      else
        let ts := mkTickets st eid uid uuid now q
        (.created ts,
          { st with tickets := st.tickets ++ ts, nextTicketID := st.nextTicketID + q.toNat })

/-- Outcome of `TicketHandler.ValidateTicket`. -/
inductive ValidateResult where
  | ticketNotFound
  | alreadyUsed
  | validated (t : Ticket)
deriving DecidableEq, Repr

/-- Model of `TicketHandler.ValidateTicket`: load the ticket; an already-used ticket
is rejected with no writes; otherwise the status is set to "used", saved
(gorm `Save` writes the record back by primary key), and one
`AttendanceLog {TicketID, CheckedInAt: now}` is created. -/
def validateTicket (st : Store) (tid : Nat) (now : Int) : ValidateResult × Store :=
  match findTicket st tid with
  | none => (.ticketNotFound, st)
  | some t =>
    if t.status = "used" then (.alreadyUsed, st)
    else
      let t' : Ticket := { t with status := "used" }
      (.validated t',
        { st with
            tickets := st.tickets.map (fun u => if u.id == tid then { u with status := "used" } else u)
            logs := st.logs ++ [{ ticketID := t.id, checkedInAt := now }] })

/-- Outcome of `EventHandler.DeleteEvent`. -/
inductive DeleteResult where
  | eventNotFound
  | hasTickets
  | deleted
deriving DecidableEq, Repr

/-- Model of `EventHandler.DeleteEvent`: load the event; refuse if any ticket
references it; otherwise delete it (gorm hard delete by primary key — the
model has no `DeletedAt`). -/
def deleteEvent (st : Store) (eid : Nat) : DeleteResult × Store :=
  match findEvent st eid with
  | none => (.eventNotFound, st)
  | some _ =>
    if 0 < countTicketsForEvent st eid then (.hasTickets, st)
    else (.deleted, { st with events := st.events.filter (fun e => !(e.id == eid)) })

/-- JWT claims (`auth.Claims`): user id, role, and the embedded
`jwt.StandardClaims` fields the code sets (`ExpiresAt`, `IssuedAt`). -/
structure TokenPayload where
  userID : Nat
  role : String
  expiresAt : Int
  issuedAt : Int
deriving DecidableEq, Repr

/-- Symbolic HMAC-SHA256 tag: a perfect MAC, modelled as the pair of the
signing key and the signed claims. -/
structure MacTag where
  key : String
  signed : TokenPayload
deriving DecidableEq, Repr

/-- Signing with `jwt.SigningMethodHS256` under a key. -/
def macSign (key : String) (p : TokenPayload) : MacTag := ⟨key, p⟩

/-- A serialized JWT, viewed through its (bijective) base64url/JSON codec:
the claims payload plus the signature over it. -/
structure JwtToken where
  payload : TokenPayload
  sig : MacTag
deriving DecidableEq, Repr

/-- The dynamic type of the `Claims` interface value carried by a parsed
`*jwt.Token`: `ParseWithClaims` stores the structured `*auth.Claims` it
decoded into, while `jwt.MapClaims` is the map representation produced
only by claim-less `jwt.Parse`. -/
inductive JwtClaimsValue where
  | structured (p : TokenPayload)
  | mapClaims (userID : Nat) (role : String)
deriving DecidableEq, Repr

/-- A parsed `*jwt.Token` as the middleware receives it. -/
structure ParsedToken where
  claims : JwtClaimsValue
deriving DecidableEq, Repr

/-- Model of `auth.GenerateToken`: claims {UserID, Role, ExpiresAt: now+24h,
IssuedAt: now} signed with HS256 under the package key. -/
def generateToken (key : String) (u : User) (now : Int) : JwtToken :=
  let p : TokenPayload :=
    { userID := u.id, role := u.role, expiresAt := now + 24 * 3600, issuedAt := now }
  { payload := p, sig := macSign key p }

/-- jwt-go `verifyExp` (a zero `ExpiresAt` counts as unset and passes the
non-required check): the token is unexpired iff `now <= exp`. -/
def verifyExp (exp now : Int) : Bool :=
  if exp = 0 then true else decide (now ≤ exp)

/-- jwt-go `verifyIat` (zero `IssuedAt` counts as unset): valid iff
`iat <= now`. -/
def verifyIat (iat now : Int) : Bool :=
  if iat = 0 then true else decide (iat ≤ now)

/-- Model of `jwt.StandardClaims.Valid()` for the fields the code sets. -/
def claimsValid (p : TokenPayload) (now : Int) : Bool :=
  verifyExp p.expiresAt now && verifyIat p.issuedAt now

/-- Model of `auth.ValidateToken`: `ParseWithClaims` with the package key checks the
HS256 signature and the standard-claims validity; on success the returned
token carries the structured `*auth.Claims` it parsed into. -/
def validateToken (key : String) (now : Int) (tok : JwtToken) : Option ParsedToken :=
  if tok.sig = macSign key tok.payload ∧ claimsValid tok.payload now = true then
    some { claims := .structured tok.payload }
  else none

/-- Splits a character list at the first occurrence of a separator,
returning the parts before and after it. -/
def splitFirst (sep : Char) : List Char → Option (List Char × List Char)
  | [] => none
  | c :: rest =>
    if c = sep then some ([], rest)
    else (splitFirst sep rest).map (fun p => (c :: p.1, p.2))

/-- Splits a character list on every occurrence of a separator. -/
def splitAll (sep : Char) : List Char → List (List Char)
  | [] => [[]]
  | c :: rest =>
    let r := splitAll sep rest
    if c = sep then [] :: r
    else
      match r with
      | [] => [[c]]
      | g :: gs => (c :: g) :: gs

/-- Decimal digit value. -/
def digitVal (c : Char) : Option Nat :=
  if c.isDigit then some (c.toNat - 48) else none

/-- Parses a nonempty decimal digit string. -/
def parseNatCs (cs : List Char) : Option Nat :=
  match cs with
  | [] => none
  | _ =>
    cs.foldl
      (fun acc c =>
        match acc, digitVal c with
        | some n, some d => some (n * 10 + d)
        | _, _ => none)
      (some 0)

/-- Parses an optionally `-`-signed decimal integer string. -/
def parseIntCs (cs : List Char) : Option Int :=
  match cs with
  | '-' :: rest => (parseNatCs rest).map (fun n => -(n : Int))
  | _ => (parseNatCs cs).map (fun n => (n : Int))

/-- Wire decoding of the claims body `userID.role.exp.iat`. -/
def decodePayloadCs (cs : List Char) : Option TokenPayload :=
  match splitAll '.' cs with
  | [uidCs, roleCs, expCs, iatCs] =>
    match parseNatCs uidCs, parseIntCs expCs, parseIntCs iatCs with
    | some uid, some e, some i => some ⟨uid, String.mk roleCs, e, i⟩
    | _, _, _ => none
  | _ => none

/-- Wire decoding of a serialized token `body#key@signedBody`: the claims
body, then the signature tag (its key and the body it signs).  This is the
executable stand-in for the JWT base64url/JSON codec. -/
def decodeTokenWire (s : String) : Option JwtToken :=
  match splitFirst '#' s.toList with
  | none => none
  | some (bodyCs, sigCs) =>
    match decodePayloadCs bodyCs, splitFirst '@' sigCs with
    | some p, some (keyCs, signedCs) =>
      match decodePayloadCs signedCs with
      | some sp => some { payload := p, sig := ⟨String.mk keyCs, sp⟩ }
      | none => none
    | _, _ => none

/-- Model of `auth.ValidateToken` applied to the raw token string extracted from the
header. -/
def validateTokenString (key : String) (now : Int) (s : String) : Option ParsedToken :=
  match decodeTokenWire s with
  | none => none
  | some tok => validateToken key now tok

/-- Go `strings.Replace(s, pat, rep, 1)` on character lists: the first
occurrence of `pat` is replaced by `rep`; if `pat` never occurs the input
is returned unchanged.  (Go's empty-pattern edge case — inserting `rep`
before an empty `s` — differs, but the middleware only uses the nonempty
pattern "Bearer ".) -/
def replaceFirstCs (s pat rep : List Char) : List Char :=
  match s with
  | [] => []
  | c :: rest =>
    if pat.isPrefixOf (c :: rest) then rep ++ (c :: rest).drop pat.length
    else c :: replaceFirstCs rest pat rep

/-- Go `strings.Replace(s, pat, rep, 1)` on strings. -/
def replaceFirst (s pat rep : String) : String :=
  String.mk (replaceFirstCs s.toList pat.toList rep.toList)

/-- Whether `pat` occurs as a contiguous substring of `s`. -/
def hasSubstrCs (s pat : List Char) : Bool :=
  match s with
  | [] => pat.isEmpty
  | _ :: rest => pat.isPrefixOf s || hasSubstrCs rest pat

/-- Result of a middleware gate on one request. -/
inductive GateResult where
  | unauthorized (msg : String)
  | forbidden (msg : String)
  | proceed (userID : Nat) (role : String)
deriving DecidableEq, Repr

/-- Whether a gate result is a 401 rejection. -/
def isUnauthorized : GateResult → Bool
  | .unauthorized _ => true
  | _ => false

/-- Model of `middleware.JWTAuth`: require a nonempty Authorization header (a
missing header reads as ""), strip the first occurrence of "Bearer "
(`strings.Replace(.., 1)`) and fail if nothing was stripped, validate the
token, assert the parsed claims to `jwt.MapClaims` — the branch the source
takes when the assertion fails returns 401 "Invalid token claims"; on the
map branch the user id is re-fetched from the store to ensure the account
still exists, and {user_id, user_role} from the token are attached. -/
def jwtAuth (key : String) (now : Int) (st : Store) (authHeader : String) : GateResult :=
  if authHeader = "" then .unauthorized "Authorization header required"
  else
    let tokenString := replaceFirst authHeader "Bearer " ""
    if tokenString = authHeader then .unauthorized "Bearer token required"
    else
      match validateTokenString key now tokenString with
      | none => .unauthorized "Invalid token"
      | some token =>
        match token.claims with
        | .structured _ => .unauthorized "Invalid token claims"
        | .mapClaims uid role =>
          match findUser st uid with
          | none => .unauthorized "User not found"
          | some _ => .proceed uid role

/-- Model of `middleware.AdminAuth`, composed after `JWTAuth` as the admin route
groups do: an aborted request stays aborted; a resolved identity with a
role other than "admin" gets 403. -/
def adminAuth : GateResult → GateResult
  | .proceed uid role =>
    if role = "admin" then .proceed uid role else .forbidden "Admin access required"
  | r => r

/-- The full gate in front of an admin route. -/
def adminGate (key : String) (now : Int) (st : Store) (authHeader : String) : GateResult :=
  adminAuth (jwtAuth key now st authHeader)

/-- A store whose user `uid` has been given role `r`, all else equal. -/
def setUserRole (st : Store) (uid : Nat) (r : String) : Store :=
  { st with users := st.users.map (fun u => if u.id == uid then { u with role := r } else u) }

/-- Model of `auth.HashPassword` / `models.hashPassword`: bcrypt modelled as a
symbolic injective one-way tag. -/
def hashPassword (pw : String) : String := "bcrypt$" ++ pw

/-- Model of the `models.User.BeforeCreate` gorm hook: a nonempty password field is
(re)hashed before the row is written. -/
def userBeforeCreate (u : User) : User :=
  if u.password = "" then u else { u with password := hashPassword u.password }

/-- Model of `handlers.RegisterRequest`. -/
structure RegisterRequest where
  name : String
  email : String
  password : String
deriving DecidableEq, Repr

/-- Outcome of `AuthHandler.Register`. -/
inductive RegisterResult where
  | conflict
  | success (token : JwtToken) (user : User)
deriving DecidableEq, Repr

/-- Model of `AuthHandler.Register`: reject a duplicate email with 409; otherwise
hash the password, create the user with role "user" (the `BeforeCreate`
hook hashes the stored password field again), issue a token, clear the
password field, and respond with {token, user}. -/
def register (st : Store) (key : String) (now : Int) (req : RegisterRequest) :
    RegisterResult × Store :=
  if (st.users.find? (fun u => u.email == req.email)).isSome then (.conflict, st)
  else
    let hashed := hashPassword req.password
    let user : User :=
      { id := st.nextUserID, name := req.name, email := req.email
        password := hashed, role := "user" }
    let stored := userBeforeCreate user
    let st' := { st with users := st.users ++ [stored], nextUserID := st.nextUserID + 1 }
    let token := generateToken key stored now
    (.success token { stored with password := "" }, st')

/-- JSON serialization of `models.User` by its struct tags: `Password` has
tag `json:"-"` and is omitted entirely (timestamps are outside the model). -/
def userJsonFields (u : User) : List (String × String) :=
  [("id", toString u.id), ("name", u.name), ("email", u.email), ("role", u.role)]

/-! Concrete fixtures used by witnesses and counterexamples. -/

/-- A store holding one future event (id 1, date 10, capacity 5) and no
tickets. -/
def evStore1 : Store :=
  { users := [], events := [⟨1, "t", "d", 10, "loc", 5⟩], tickets := [], logs := []
    nextUserID := 1, nextTicketID := 1 }

/-- A store holding one future event with capacity 20. -/
def bigStore : Store :=
  { users := [], events := [⟨1, "t", "d", 10, "loc", 20⟩], tickets := [], logs := []
    nextUserID := 1, nextTicketID := 1 }

/-- A store holding one event whose date is exactly 5. -/
def eqStore : Store :=
  { users := [], events := [⟨1, "t", "d", 5, "loc", 1⟩], tickets := [], logs := []
    nextUserID := 1, nextTicketID := 1 }

/-- A store holding one event and one valid ticket for it. -/
def tickStore : Store :=
  { users := [], events := [⟨1, "t", "d", 10, "loc", 5⟩]
    tickets := [⟨1, 1, 7, "q", "valid"⟩], logs := []
    nextUserID := 1, nextTicketID := 2 }

/-- A store holding one non-admin user (id 1). -/
def userStore : Store :=
  { users := [⟨1, "n", "e", "p", "user"⟩], events := [], tickets := [], logs := []
    nextUserID := 2, nextTicketID := 1 }

/-! Helper lemmas. -/

/-- Marking the found ticket used commutes with the primary-key lookup:
after the `Save`-style map-update, the lookup returns the found ticket with
its status set to "used". -/
theorem find_update_status (tid : Nat) (l : List Ticket) (t : Ticket)
    (h : l.find? (fun u => u.id == tid) = some t) :
    (l.map (fun u => if u.id == tid then { u with status := "used" } else u)).find?
      (fun u => u.id == tid) = some { t with status := "used" } := by
  induction l with
  | nil => simp at h
  | cons a l ih =>
    by_cases ha : (a.id == tid) = true
    · simp only [List.find?_cons, ha, if_pos] at h
      cases h
      rw [List.map_cons, if_pos ha]
      exact List.find?_cons_of_pos _ ha
    · have haf : (a.id == tid) = false := by simpa using ha
      simp only [List.find?_cons, haf] at h
      rw [List.map_cons, if_neg ha]
      exact (List.find?_cons_of_neg _ (by simpa using ha)).trans (ih h)

/-- Every token `auth.ValidateToken` returns carries the structured
`*auth.Claims` it parsed into, never a `jwt.MapClaims`. -/
theorem validateToken_structured (key : String) (now : Int) (tok : JwtToken)
    (pt : ParsedToken) (h : validateToken key now tok = some pt) :
    ∃ p, pt.claims = .structured p := by
  unfold validateToken at h
  by_cases hc : tok.sig = macSign key tok.payload ∧ claimsValid tok.payload now = true
  · rw [if_pos hc] at h
    cases h
    exact ⟨tok.payload, rfl⟩
  · rw [if_neg hc] at h
    cases h

/-- The string-level variant of `validateToken_structured`. -/
theorem validateTokenString_structured (key : String) (now : Int) (s : String)
    (pt : ParsedToken) (h : validateTokenString key now s = some pt) :
    ∃ p, pt.claims = .structured p := by
  unfold validateTokenString at h
  cases hd : decodeTokenWire s with
  | none => rw [hd] at h; simp at h
  | some tok =>
    rw [hd] at h
    exact validateToken_structured key now tok pt h

/-- The `jwt.MapClaims` type assertion in `JWTAuth` fails on every token
the `auth.ValidateToken` of this codebase can produce, so the middleware
rejects every request with 401. -/
theorem jwtAuth_isUnauthorized (key : String) (now : Int) (st : Store) (hdr : String) :
    isUnauthorized (jwtAuth key now st hdr) = true := by
  unfold jwtAuth
  by_cases h1 : hdr = ""
  · rw [if_pos h1]; rfl
  · rw [if_neg h1]
    by_cases h2 : replaceFirst hdr "Bearer " "" = hdr
    · rw [if_pos h2]; rfl
    · rw [if_neg h2]
      cases hv : validateTokenString key now (replaceFirst hdr "Bearer " "") with
      | none => rfl
      | some pt =>
        obtain ⟨p, hp⟩ := validateTokenString_structured key now _ pt hv
        obtain ⟨claims⟩ := pt
        have hp' : claims = JwtClaimsValue.structured p := hp
        subst hp'
        rfl

/-- The middleware `JWTAuth` never reads the store before it rejects at the claims
assertion, so its outcome is the same over any two stores. -/
theorem jwtAuth_store_blind (key : String) (now : Int) (st st' : Store) (hdr : String) :
    jwtAuth key now st hdr = jwtAuth key now st' hdr := by
  unfold jwtAuth
  by_cases h1 : hdr = ""
  · simp only [if_pos h1]
  · simp only [if_neg h1]
    by_cases h2 : replaceFirst hdr "Bearer " "" = hdr
    · simp only [if_pos h2]
    · simp only [if_neg h2]
      cases hv : validateTokenString key now (replaceFirst hdr "Bearer " "") with
      | none => rfl
      | some pt =>
        obtain ⟨p, hp⟩ := validateTokenString_structured key now _ pt hv
        obtain ⟨claims⟩ := pt
        have hp' : claims = JwtClaimsValue.structured p := hp
        subst hp'
        rfl

/-! Claims. -/

/-- C9: the ticket-code shape check is claimed to pass exactly the codes
satisfying a "TICKET-"-prefix-and-length sanity check and to reject
sufficiently long strings lacking the prefix.  The code contradicts its
own stated intent: `utils.ValidateQRCode` compares only the LENGTH of the
input against `len("TICKET-")`, so "AAAAAAA" — seven characters, no
prefix — passes, and in general the check accepts a string iff its length
is at least 7, never looking at the prefix characters. -/
theorem qr_shape_check_c9 :
    validateQRCode "AAAAAAA" = true ∧
    "TICKET-".toList.isPrefixOf "AAAAAAA".toList = false ∧
    (∀ s : String, validateQRCode s = true ↔ "TICKET-".length ≤ s.length) := by
  refine ⟨by decide, by decide, ?_⟩
  intro s
  have h7 : "TICKET-".length = 7 := by decide
  unfold validateQRCode
  by_cases h : s.length < "TICKET-".length
  · rw [if_pos h]
    rw [h7] at h ⊢
    constructor
    · intro hf; cases hf
    · intro hle; omega
  · rw [if_neg h]
    rw [h7] at h ⊢
    constructor
    · intro _; omega
    · intro _; rfl

/-- C3: a purchase quantity outside 1..10 is claimed to be rejected with
`InvalidRequest` and to create no tickets.  The gorilla-mux handler
decodes the body with `json.Decoder.Decode`, which never enforces the
`binding:"required,min=1,max=10"` tag declared on
`PurchaseTicketRequest`, so quantity 0 "succeeds" (201, zero tickets) and
quantity 11 succeeds and creates eleven tickets. -/
theorem purchase_quantity_bounds_c3 :
    (purchaseTicket evStore1 1 7 0 0 "u").1 = .created [] ∧
    (∃ ts, (purchaseTicket bigStore 1 7 11 0 "u").1 = .created ts ∧ ts.length = 11) := by
  exact ⟨by decide, ⟨mkTickets bigStore 1 7 "u" 0 11, rfl, by decide⟩⟩

/-- C7: the claim says unauthenticated requests get 401 and authenticated
non-admin requests get 403 on admin routes.  The 401 half holds only
because the middleware rejects EVERY request: `JWTAuth` parses the token
with `auth.ValidateToken`, which fills the structured `*auth.Claims`, and
then asserts `token.Claims.(jwt.MapClaims)` — an assertion that can never
succeed — so every request, including one with a valid token for an
existing non-admin user on an admin route, gets 401 "Invalid token
claims" and the 403 path is unreachable.  First conjunct: the gate is 401
for all inputs.  Second conjunct: the concrete failing input — a valid
bearer token of the existing non-admin user 1 on an admin route — yields
401 "Invalid token claims", not the claimed 403. -/
theorem jwt_gate_always_unauthorized_c7 :
    (∀ (key : String) (now : Int) (st : Store) (hdr : String),
      isUnauthorized (jwtAuth key now st hdr) = true) ∧
    adminGate "k" 0 userStore "Bearer 1.u.9.0#k@1.u.9.0" =
      .unauthorized "Invalid token claims" := by
  constructor
  · intro key now st hdr
    exact jwtAuth_isUnauthorized key now st hdr
  · decide

/-- C10: the claim says the gate attaches the token's encoded role, so a
store differing only in the stored role of the token's user resolves the
same {userID, role} pair.  The store-independence half is true — but only
vacuously, and the attachment half is false: the `jwt.MapClaims` type
assertion always fails (see `jwt_gate_always_unauthorized_c7`'s doc), so
the gate never attaches any identity.  This theorem records exactly what
holds: the outcome is identical under any role rewrite of any user, and
that outcome is always a 401 rejection, never a resolved identity. -/
theorem gate_role_invariance_c10 :
    ∀ (key : String) (now : Int) (st : Store) (hdr : String) (uid : Nat) (r : String),
      jwtAuth key now (setUserRole st uid r) hdr = jwtAuth key now st hdr ∧
      isUnauthorized (jwtAuth key now st hdr) = true := by
  intro key now st hdr uid r
  exact ⟨jwtAuth_store_blind key now (setUserRole st uid r) st hdr,
    jwtAuth_isUnauthorized key now st hdr⟩

/-- C6: a token issued for a user verifies, inside its validity window, to
exactly that user's id and role; an expired token (issued at a real,
non-negative Unix time) fails; a token whose signature is not the HS256
tag of its payload under the verifying key fails. -/
theorem token_issue_verify_c6 (key : String) (u : User) (t0 now : Int) :
    (t0 ≤ now → now ≤ t0 + 24 * 3600 →
      validateToken key now (generateToken key u t0) =
        some { claims := .structured ⟨u.id, u.role, t0 + 24 * 3600, t0⟩ }) ∧
    (0 ≤ t0 → t0 + 24 * 3600 < now →
      validateToken key now (generateToken key u t0) = none) ∧
    (∀ tok : JwtToken, tok.sig ≠ macSign key tok.payload →
      validateToken key now tok = none) := by
  refine ⟨?_, ?_, ?_⟩
  · intro h1 h2
    have hcv : claimsValid ⟨u.id, u.role, t0 + 24 * 3600, t0⟩ now = true := by
      unfold claimsValid verifyExp verifyIat
      simp only [Bool.and_eq_true]
      constructor
      · split
        · rfl
        · simp only [decide_eq_true_eq]; exact h2
      · split
        · rfl
        · simp only [decide_eq_true_eq]; exact h1
    unfold validateToken generateToken
    simp only
    rw [if_pos ⟨trivial, hcv⟩]
  · intro h0 hexp
    have hcv : claimsValid ⟨u.id, u.role, t0 + 24 * 3600, t0⟩ now = false := by
      unfold claimsValid verifyExp verifyIat
      simp only
      have he : ¬ (t0 + 24 * 3600 = 0) := by omega
      rw [if_neg he]
      have hd : decide (now ≤ t0 + 24 * 3600) = false := by
        simp only [decide_eq_false_iff_not]
        omega
      rw [hd]
      rfl
    unfold validateToken generateToken
    simp only
    rw [if_neg]
    intro hcontra
    have hfalse : claimsValid ⟨u.id, u.role, t0 + 24 * 3600, t0⟩ now = true := hcontra.2
    rw [hcv] at hfalse
    simp at hfalse
  · intro tok hne
    unfold validateToken
    rw [if_neg]
    intro hcontra
    exact hne hcontra.1

/-- C6 witness: the round trip, the expiry rejection, and the
bad-signature rejection at concrete inputs. -/
theorem token_issue_verify_c6_witness :
    validateToken "k" 5 (generateToken "k" ⟨1, "n", "e", "p", "user"⟩ 0) =
      some { claims := .structured ⟨1, "user", 0 + 24 * 3600, 0⟩ } ∧
    validateToken "k" 90000 (generateToken "k" ⟨1, "n", "e", "p", "user"⟩ 0) = none ∧
    validateToken "k" 5 ⟨⟨1, "u", 9, 0⟩, ⟨"x", ⟨1, "u", 9, 0⟩⟩⟩ = none :=
  ⟨(token_issue_verify_c6 "k" ⟨1, "n", "e", "p", "user"⟩ 0 5).1 (by decide) (by decide),
   (token_issue_verify_c6 "k" ⟨1, "n", "e", "p", "user"⟩ 0 90000).2.1 (by decide) (by decide),
   (token_issue_verify_c6 "k" ⟨1, "n", "e", "p", "user"⟩ 0 5).2.2
     ⟨⟨1, "u", 9, 0⟩, ⟨"x", ⟨1, "u", 9, 0⟩⟩⟩ (by decide)⟩

/-- An already-used ticket is rejected with no store change (the
`ticket.Status == "used"` early return). -/
theorem validateTicket_used (st : Store) (tid : Nat) (now : Int) (t : Ticket)
    (hfind : findTicket st tid = some t) (hused : t.status = "used") :
    validateTicket st tid now = (.alreadyUsed, st) := by
  unfold validateTicket
  rw [hfind]
  simp only [if_pos hused]

/-- C2: validating a used ticket returns `InvalidRequest` and changes
nothing; validating a valid ticket marks it used, persists that status,
appends exactly one AttendanceLog for it, and a second validation of the
same ticket then returns `InvalidRequest` with no further change, so the
two-in-sequence run yields success then rejection with one log in
total. -/
theorem validate_single_use_c2 (st : Store) (tid : Nat) (now : Int) (t : Ticket)
    (hfind : findTicket st tid = some t) :
    (t.status = "used" → validateTicket st tid now = (.alreadyUsed, st)) ∧
    (t.status = "valid" →
      (validateTicket st tid now).1 = .validated { t with status := "used" } ∧
      findTicket (validateTicket st tid now).2 tid = some { t with status := "used" } ∧
      (validateTicket st tid now).2.logs = st.logs ++ [⟨t.id, now⟩] ∧
      countLogsFor (validateTicket st tid now).2 t.id = countLogsFor st t.id + 1 ∧
      validateTicket (validateTicket st tid now).2 tid now =
        (.alreadyUsed, (validateTicket st tid now).2)) := by
  constructor
  · intro hused
    exact validateTicket_used st tid now t hfind hused
  · intro hvalid
    have hne : ¬ t.status = "used" := by rw [hvalid]; decide
    have hred : validateTicket st tid now =
        (.validated { t with status := "used" },
          { st with
              tickets := st.tickets.map
                (fun u => if u.id == tid then { u with status := "used" } else u)
              logs := st.logs ++ [{ ticketID := t.id, checkedInAt := now }] }) := by
      unfold validateTicket
      rw [hfind]
      simp only [if_neg hne]
    have hfind2 : findTicket (validateTicket st tid now).2 tid =
        some { t with status := "used" } := by
      rw [hred]
      unfold findTicket at hfind ⊢
      exact find_update_status tid st.tickets t hfind
    refine ⟨by rw [hred], hfind2, by rw [hred], ?_, ?_⟩
    · rw [hred]
      unfold countLogsFor
      simp [List.filter_append]
    · exact validateTicket_used _ tid now _ hfind2 rfl

/-- C2 witness: one valid ticket, validated twice. -/
theorem validate_single_use_c2_witness :
    (validateTicket tickStore 1 3).1 = .validated ⟨1, 1, 7, "q", "used"⟩ ∧
    findTicket (validateTicket tickStore 1 3).2 1 = some ⟨1, 1, 7, "q", "used"⟩ ∧
    (validateTicket tickStore 1 3).2.logs = tickStore.logs ++ [⟨1, 3⟩] ∧
    countLogsFor (validateTicket tickStore 1 3).2 1 = countLogsFor tickStore 1 + 1 ∧
    validateTicket (validateTicket tickStore 1 3).2 1 3 =
      (.alreadyUsed, (validateTicket tickStore 1 3).2) :=
  (validate_single_use_c2 tickStore 1 3 ⟨1, 1, 7, "q", "valid"⟩ (by decide)).2 rfl

/-- C1 counterexample: the claim quantifies over every request and asserts
"succeeds and creates exactly N tickets iff N ≤ C".  The handler never
checks the sign of the quantity, so at N = -1 against capacity 5 (C = 5)
the right side holds while the left cannot: the loop body runs zero times
and the handler answers 201 with zero tickets, not -1. -/
theorem purchase_exact_quantity_c1_cex :
    (purchaseTicket evStore1 1 7 (-1) 0 "u").1 = .created [] ∧
    ¬ ((∃ ts, (purchaseTicket evStore1 1 7 (-1) 0 "u").1 = .created ts ∧
          (ts.length : Int) = -1)
        ↔ (-1 : Int) ≤ (5 : Int) - (countTicketsForEvent evStore1 1 : Int)) := by
  have h1 : (purchaseTicket evStore1 1 7 (-1) 0 "u").1 = .created [] := by decide
  refine ⟨h1, ?_⟩
  intro hiff
  obtain ⟨ts, hts, hlen⟩ := hiff.mpr (by decide)
  rw [h1] at hts
  cases hts
  simp at hlen

/-- C1 (amended to non-negative quantities, which is what the
counterexample forces): for a request with quantity N ≥ 0 against an
existing, non-past event, the purchase succeeds and creates exactly N
tickets — each valid, owned by the caller, referencing the event, and
appended to the ticket table — iff N ≤ C where C = capacity minus
existing tickets; and when N > C it returns `InvalidRequest` leaving the
store untouched. -/
theorem purchase_capacity_iff_c1 (st : Store) (eid uid : Nat) (q now : Int) (uuid : String)
    (event : Event) (hq : 0 ≤ q) (hev : findEvent st eid = some event)
    (hfut : ¬ event.date < now) :
    ((∃ ts, (purchaseTicket st eid uid q now uuid).1 = .created ts ∧ (ts.length : Int) = q ∧
        (∀ t ∈ ts, t.status = "valid" ∧ t.userID = uid ∧ t.eventID = eid) ∧
        (purchaseTicket st eid uid q now uuid).2.tickets = st.tickets ++ ts)
      ↔ q ≤ event.capacity - (countTicketsForEvent st eid : Int)) ∧
    (event.capacity - (countTicketsForEvent st eid : Int) < q →
      purchaseTicket st eid uid q now uuid = (.notEnough, st)) := by
  have hred : purchaseTicket st eid uid q now uuid =
      if event.capacity - (countTicketsForEvent st eid : Int) < q then (.notEnough, st)
      else (.created (mkTickets st eid uid uuid now q),
        { st with tickets := st.tickets ++ mkTickets st eid uid uuid now q,
                  nextTicketID := st.nextTicketID + q.toNat }) := by
    unfold purchaseTicket
    rw [hev]
    simp only [if_neg hfut]
  by_cases hc : event.capacity - (countTicketsForEvent st eid : Int) < q
  · rw [if_pos hc] at hred
    constructor
    · constructor
      · rintro ⟨ts, hts, -, -, -⟩
        rw [hred] at hts
        cases hts
      · intro hle
        omega
    · intro _
      exact hred
  · rw [if_neg hc] at hred
    constructor
    · constructor
      · intro _
        omega
      · intro _
        refine ⟨mkTickets st eid uid uuid now q, by rw [hred], ?_, ?_, by rw [hred]⟩
        · have hl : (mkTickets st eid uid uuid now q).length = q.toNat := by
            simp [mkTickets]
          rw [hl]
          exact Int.toNat_of_nonneg hq
        · intro t ht
          simp only [mkTickets, List.mem_map, List.mem_range] at ht
          obtain ⟨i, -, rfl⟩ := ht
          exact ⟨rfl, rfl, rfl⟩
    · intro hgt
      exact absurd hgt hc

/-- C1 witness: quantity 2 against capacity 5 with no tickets sold. -/
theorem purchase_capacity_iff_c1_witness :
    ((∃ ts, (purchaseTicket evStore1 1 7 2 0 "u").1 = .created ts ∧ (ts.length : Int) = 2 ∧
        (∀ t ∈ ts, t.status = "valid" ∧ t.userID = 7 ∧ t.eventID = 1) ∧
        (purchaseTicket evStore1 1 7 2 0 "u").2.tickets = evStore1.tickets ++ ts)
      ↔ (2 : Int) ≤ (5 : Int) - (countTicketsForEvent evStore1 1 : Int)) ∧
    ((5 : Int) - (countTicketsForEvent evStore1 1 : Int) < 2 →
      purchaseTicket evStore1 1 7 2 0 "u" = (.notEnough, evStore1)) :=
  purchase_capacity_iff_c1 evStore1 1 7 2 0 "u" ⟨1, "t", "d", 10, "loc", 5⟩
    (by decide) (by decide) (by decide)

/-- C4 counterexample: the claim includes an event date exactly equal to
the request time among the rejected cases, but `event.Date.Before(now)`
is strict, so with date = now = 5 the purchase goes through and creates a
ticket instead of being rejected. -/
theorem purchase_past_boundary_c4_cex :
    findEvent eqStore 1 = some ⟨1, "t", "d", 5, "loc", 1⟩ ∧
    (purchaseTicket eqStore 1 7 1 5 "u").1 =
      .created [⟨1, 1, 7, "TICKET-1-7-1-u-5", "valid"⟩] ∧
    (purchaseTicket eqStore 1 7 1 5 "u").2.tickets =
      [⟨1, 1, 7, "TICKET-1-7-1-u-5", "valid"⟩] ∧
    eqStore.tickets = [] := by
  decide

/-- C4 (amended to the strict comparison the code performs): a purchase
against an existing event is rejected as past — with the store unchanged
— iff the event date is strictly earlier than the request time; a date
equal to or later than the request time is never rejected as past. -/
theorem purchase_past_reject_c4 (st : Store) (eid uid : Nat) (q now : Int) (uuid : String)
    (event : Event) (hev : findEvent st eid = some event) :
    (event.date < now → purchaseTicket st eid uid q now uuid = (.pastEvent, st)) ∧
    (¬ event.date < now → (purchaseTicket st eid uid q now uuid).1 ≠ .pastEvent) := by
  constructor
  · intro hpast
    unfold purchaseTicket
    rw [hev]
    simp only [if_pos hpast]
  · intro hfut
    unfold purchaseTicket
    rw [hev]
    simp only [if_neg hfut]
    by_cases hc : event.capacity - (countTicketsForEvent st eid : Int) < q
    · rw [if_pos hc]
      intro hcontra
      cases hcontra
    · rw [if_neg hc]
      intro hcontra
      cases hcontra

/-- C4 witness: date 5 against request time 6 is rejected; the same event
is not past-rejected at request time 4. -/
theorem purchase_past_reject_c4_witness :
    ((5 : Int) < 6 → purchaseTicket eqStore 1 7 1 6 "u" = (.pastEvent, eqStore)) ∧
    (¬ (5 : Int) < 6 → (purchaseTicket eqStore 1 7 1 6 "u").1 ≠ .pastEvent) :=
  purchase_past_reject_c4 eqStore 1 7 1 6 "u" ⟨1, "t", "d", 5, "loc", 1⟩ (by decide)

/-- C5: deleting an existing event with at least one ticket fails with
`InvalidRequest` and leaves the whole store unchanged; with zero tickets
the deletion succeeds, the event is gone, and no other table is
touched. -/
theorem delete_event_guard_c5 (st : Store) (eid : Nat) (event : Event)
    (hev : findEvent st eid = some event) :
    (0 < countTicketsForEvent st eid → deleteEvent st eid = (.hasTickets, st)) ∧
    (countTicketsForEvent st eid = 0 →
      (deleteEvent st eid).1 = .deleted ∧
      findEvent (deleteEvent st eid).2 eid = none ∧
      (deleteEvent st eid).2.tickets = st.tickets ∧
      (deleteEvent st eid).2.users = st.users ∧
      (deleteEvent st eid).2.logs = st.logs) := by
  constructor
  · intro hpos
    unfold deleteEvent
    rw [hev, if_pos hpos]
  · intro hzero
    have hneg : ¬ 0 < countTicketsForEvent st eid := by omega
    have hred : deleteEvent st eid =
        (.deleted, { st with events := st.events.filter (fun e => !(e.id == eid)) }) := by
      unfold deleteEvent
      rw [hev, if_neg hneg]
    refine ⟨by rw [hred], ?_, by rw [hred], by rw [hred], by rw [hred]⟩
    rw [hred]
    unfold findEvent
    rw [List.find?_eq_none]
    intro e he
    rw [List.mem_filter] at he
    have hfalse : (e.id == eid) = false := by simpa using he.2
    rw [hfalse]
    decide

/-- C5 witness: the ticket-free event of `evStore1` deletes cleanly. -/
theorem delete_event_guard_c5_witness :
    (0 < countTicketsForEvent evStore1 1 → deleteEvent evStore1 1 = (.hasTickets, evStore1)) ∧
    (countTicketsForEvent evStore1 1 = 0 →
      (deleteEvent evStore1 1).1 = .deleted ∧
      findEvent (deleteEvent evStore1 1).2 1 = none ∧
      (deleteEvent evStore1 1).2.tickets = evStore1.tickets ∧
      (deleteEvent evStore1 1).2.users = evStore1.users ∧
      (deleteEvent evStore1 1).2.logs = evStore1.logs) :=
  delete_event_guard_c5 evStore1 1 ⟨1, "t", "d", 10, "loc", 5⟩ (by decide)

/-- C8: a successful registration responds with a user whose password
field was cleared before the response was built, and the JSON rendering
of a user has no password key at all (struct tag `json:"-"`). -/
theorem register_no_password_c8 (st : Store) (key : String) (now : Int)
    (req : RegisterRequest) (tok : JwtToken) (user : User) (st2 : Store)
    (h : register st key now req = (.success tok user, st2)) :
    user.password = "" ∧ ∀ kv ∈ userJsonFields user, kv.1 ≠ "password" := by
  constructor
  · unfold register at h
    by_cases hc : (st.users.find? (fun u => u.email == req.email)).isSome = true
    · rw [if_pos hc] at h
      simp at h
    · rw [if_neg hc] at h
      simp only [Prod.mk.injEq, RegisterResult.success.injEq] at h
      obtain ⟨⟨-, huser⟩, -⟩ := h
      rw [← huser]
  · intro kv hkv
    simp only [userJsonFields, List.mem_cons, List.not_mem_nil, or_false] at hkv
    rcases hkv with rfl | rfl | rfl | rfl <;> simp

/-- C8 witness: registering a fresh email against `userStore`. -/
theorem register_no_password_c8_witness :
    (⟨2, "n2", "e2", "", "user"⟩ : User).password = "" ∧
    ∀ kv ∈ userJsonFields ⟨2, "n2", "e2", "", "user"⟩, kv.1 ≠ "password" :=
  register_no_password_c8 userStore "k" 0 ⟨"n2", "e2", "p2"⟩
    ⟨⟨2, "user", 0 + 24 * 3600, 0⟩, ⟨"k", ⟨2, "user", 0 + 24 * 3600, 0⟩⟩⟩
    ⟨2, "n2", "e2", "", "user"⟩
    { users := [⟨1, "n", "e", "p", "user"⟩, ⟨2, "n2", "e2", "bcrypt$bcrypt$p2", "user"⟩]
      events := [], tickets := [], logs := [], nextUserID := 3, nextTicketID := 1 }
    (by decide)

end ETS
